import Mathlib

/-!
Verification development for the werewolf card-game PDF generator
(`generate_cards_pdf.py`).  The pure core of the program — categorization of
card image files, quantity calculation, flat card-list expansion, page-layout
geometry, pagination and the instructions summary — is embedded shallowly
below; filesystem access and canvas drawing are modelled by explicit data
(an `Option` folder listing, a list of structured summary items).
-/

namespace CardsPdf

/-- A file path, as far as the program inspects it: the program only ever
reads `card_path.name` (the final filename component); the rest of the path
is kept so that distinct files with the same filename stay distinct. -/
structure CardPath where
  dir : String
  name : String
deriving DecidableEq, Repr

instance : Inhabited CardPath := ⟨⟨"", ""⟩⟩

/-- The `CardType` enum of the source: five recognized card categories. -/
inductive CardType where
  | VILLAGER
  | WEREWOLF
  | FEATHERS
  | CAPTAIN
  | BACK
deriving DecidableEq, Repr

/-- The filename bound to each enum member (`CardType.value` in the source). -/
def CardType.value : CardType → String
  | .VILLAGER => "Simple Villageois.png"
  | .WEREWOLF => "Loup Garou.png"
  | .FEATHERS => "Plumes du corbeau.png"
  | .CAPTAIN => "Capitaine.png"
  | .BACK => "Dos-Cartes.png"

/-- The `type_mapping` dict of `categorize_cards`: filename → category, a
closed five-entry table; unmatched filenames map to `none`. -/
def type_mapping (s : String) : Option CardType :=
  if s = "Simple Villageois.png" then some CardType.VILLAGER
  else if s = "Loup Garou.png" then some CardType.WEREWOLF
  else if s = "Plumes du corbeau.png" then some CardType.FEATHERS
  else if s = "Capitaine.png" then some CardType.CAPTAIN
  else if s = "Dos-Cartes.png" then some CardType.BACK
  else none

/-- The quantities dict computed by `_calculate_quantities`, with its string
keys turned into record fields.  All integer entries are nonnegative in the
source, so they are carried as `Nat` (the one subtraction, `max(0, total-6)`,
is truncated subtraction). -/
structure Quantities where
  villageois_count : Nat
  loup_garou_count : Nat
  plumes_corbeau_count : Nat
  capitaine_count : Nat
  autres_cartes : Nat
  total_cartes_face : Nat
  dos_count : Nat
  total_cartes : Nat
  has_villageois : Bool
  has_loup_garou : Bool
  has_plumes_corbeau : Bool
  has_capitaine : Bool
  has_dos : Bool
deriving DecidableEq, Repr

/-- The `CardInventory` dataclass.  `categorized` models the
`defaultdict(list)` built by `categorize_cards`: a key is present in the
Python dict exactly when its list is nonempty (lists are only ever created
by appending), so dict membership is rendered as `categorized t ≠ []`. -/
structure CardInventory where
  categorized : CardType → List CardPath
  others : List CardPath
  quantities : Quantities

/-- `_calculate_quantities`: derives every quantity from which categories are
present and how many uncategorized files exist.  `max(0, total_face - 6)`
becomes `Nat` truncated subtraction, which agrees with it. -/
def calculate_quantities (cat : CardType → List CardPath) (others : List CardPath) :
    Quantities :=
  let villageois_count : Nat := if cat CardType.VILLAGER ≠ [] then 6 else 0
  let loup_garou_count : Nat := if cat CardType.WEREWOLF ≠ [] then 4 else 0
  let plumes_corbeau_count : Nat := if cat CardType.FEATHERS ≠ [] then 2 else 0
  let capitaine_count : Nat := if cat CardType.CAPTAIN ≠ [] then 2 else 0
  let total_cartes_face : Nat :=
    others.length +
      (villageois_count + loup_garou_count + plumes_corbeau_count + capitaine_count)
  let dos_count : Nat := if cat CardType.BACK ≠ [] then total_cartes_face - 6 else 0
  { villageois_count := villageois_count
    loup_garou_count := loup_garou_count
    plumes_corbeau_count := plumes_corbeau_count
    capitaine_count := capitaine_count
    autres_cartes := others.length
    total_cartes_face := total_cartes_face
    dos_count := dos_count
    total_cartes := total_cartes_face + dos_count
    has_villageois := decide (cat CardType.VILLAGER ≠ [])
    has_loup_garou := decide (cat CardType.WEREWOLF ≠ [])
    has_plumes_corbeau := decide (cat CardType.FEATHERS ≠ [])
    has_capitaine := decide (cat CardType.CAPTAIN ≠ [])
    has_dos := decide (cat CardType.BACK ≠ []) }

/-- The categorization loop of `categorize_cards`: each file is appended to
its category bucket when its filename matches the table, or to `others`
otherwise, preserving input order. -/
def categorize_loop : List CardPath → (CardType → List CardPath) → List CardPath →
    ((CardType → List CardPath) × List CardPath)
  | [], cat, others => (cat, others)
  | p :: rest, cat, others =>
    match type_mapping p.name with
    | some t => categorize_loop rest (fun u => if u = t then cat u ++ [p] else cat u) others
    | none => categorize_loop rest cat (others ++ [p])

/-- `categorize_cards`: build the inventory from the scanned file list. -/
def categorize_cards (card_files : List CardPath) : CardInventory :=
  let r := categorize_loop card_files (fun _ => []) []
  { categorized := r.1, others := r.2, quantities := calculate_quantities r.1 r.2 }

/-- One point, per millimetre-count: `mm = 72 / 25.4` points, the reportlab
unit used throughout, as an exact rational. -/
def mm : ℚ := 360 / 127

/-- A4 page width in points (`reportlab.lib.pagesizes.A4`). -/
def A4_width : ℚ := 210 * mm

/-- A4 page height in points. -/
def A4_height : ℚ := 297 * mm

/-- Page margin in millimetres (`MARGIN`). -/
def MARGIN : ℚ := 15

/-- Maximum card edge in millimetres (`CARD_MAX_SIZE`). -/
def CARD_MAX_SIZE : ℚ := 80

/-- Vertical spacing between cards in millimetres (`CARD_SPACING_V`). -/
def CARD_SPACING_V : ℚ := 8

/-- Minimum horizontal spacing in millimetres (`CARD_SPACING_H_MIN`). -/
def CARD_SPACING_H_MIN : ℚ := 10

/-- The `LayoutConfig` NamedTuple. -/
structure LayoutConfig where
  card_size : ℚ
  cards_per_row : Nat
  cards_per_col : Nat
  horizontal_spacing : ℚ
deriving DecidableEq, Repr

/-- `LayoutConfig.cards_per_page` property. -/
def LayoutConfig.cards_per_page (l : LayoutConfig) : Nat :=
  l.cards_per_row * l.cards_per_col

/-- `_calculate_layout`: geometry of the A4 card grid.  Python's
`int(x // y)` on the nonnegative operands used here is the rational floor. -/
def calculate_layout : LayoutConfig :=
  let available_width : ℚ := A4_width - 2 * MARGIN * mm
  let available_height : ℚ := A4_height - 2 * MARGIN * mm
  let cards_per_row : Nat := 2
  let card_size : ℚ := min (CARD_MAX_SIZE * mm) ((available_width - CARD_SPACING_H_MIN * mm) / 2)
  let total_card_width : ℚ := (cards_per_row : ℚ) * card_size
  let horizontal_spacing : ℚ := (available_width - total_card_width) / ((cards_per_row : ℚ) + 1)
  let cards_per_col : Nat := (⌊available_height / (card_size + CARD_SPACING_V * mm)⌋).toNat
  { card_size := card_size
    cards_per_row := cards_per_row
    cards_per_col := cards_per_col
    horizontal_spacing := horizontal_spacing }

/-- `_prepare_card_list`: expand the inventory into the flat ordered list of
cards to print.  `inventory.categorized[card_type][0]` is the head of the
bucket (guarded nonempty by the same condition the source checks). -/
def prepare_card_list (inv : CardInventory) : List CardPath :=
  (if inv.categorized CardType.VILLAGER ≠ [] ∧ 0 < inv.quantities.villageois_count then
    List.replicate inv.quantities.villageois_count ((inv.categorized CardType.VILLAGER).headI)
  else []) ++
  (if inv.categorized CardType.WEREWOLF ≠ [] ∧ 0 < inv.quantities.loup_garou_count then
    List.replicate inv.quantities.loup_garou_count ((inv.categorized CardType.WEREWOLF).headI)
  else []) ++
  (if inv.categorized CardType.FEATHERS ≠ [] ∧ 0 < inv.quantities.plumes_corbeau_count then
    List.replicate inv.quantities.plumes_corbeau_count ((inv.categorized CardType.FEATHERS).headI)
  else []) ++
  (if inv.categorized CardType.CAPTAIN ≠ [] ∧ 0 < inv.quantities.capitaine_count then
    List.replicate inv.quantities.capitaine_count ((inv.categorized CardType.CAPTAIN).headI)
  else []) ++
  inv.others ++
  (if inv.categorized CardType.BACK ≠ [] ∧ 0 < inv.quantities.dos_count then
    List.replicate inv.quantities.dos_count ((inv.categorized CardType.BACK).headI)
  else [])

/-- One line of the dynamic summary block on the instructions page.  The
source builds strings; the line kinds and the numbers interpolated into them
are modelled structurally. -/
inductive SummaryItem where
  | qtyLine (qty : Nat) (desc : String)
  | othersLine (qty : Nat)
  | backLine (qty : Nat)
  | blank
  | totalLine (total : Int)
deriving DecidableEq, Repr

/-- `_generate_content_summary`: the dynamic part of the instructions page.
The dict `type_to_desc` iterates in insertion order
(villager, werewolf, feathers, captain).  The final total is
`total_face_cards - 3` over the integers (Python ints may go negative). -/
def generate_content_summary (inv : CardInventory) : List SummaryItem :=
  (if inv.categorized CardType.VILLAGER ≠ [] ∧ 0 < inv.quantities.villageois_count then
    [SummaryItem.qtyLine inv.quantities.villageois_count "Villageois - 3x Villageois-Villageois"]
  else []) ++
  (if inv.categorized CardType.WEREWOLF ≠ [] ∧ 0 < inv.quantities.loup_garou_count then
    [SummaryItem.qtyLine inv.quantities.loup_garou_count "Loup Garou (separes)"]
  else []) ++
  (if inv.categorized CardType.FEATHERS ≠ [] ∧ 0 < inv.quantities.plumes_corbeau_count then
    [SummaryItem.qtyLine inv.quantities.plumes_corbeau_count "Plumes - 1x collee"]
  else []) ++
  (if inv.categorized CardType.CAPTAIN ≠ [] ∧ 0 < inv.quantities.capitaine_count then
    [SummaryItem.qtyLine inv.quantities.capitaine_count "Capitaine - 1x collee"]
  else []) ++
  (if 0 < inv.quantities.autres_cartes then
    [SummaryItem.othersLine inv.quantities.autres_cartes]
  else []) ++
  (if inv.categorized CardType.BACK ≠ [] then
    [SummaryItem.backLine inv.quantities.dos_count]
  else []) ++
  [SummaryItem.blank, SummaryItem.totalLine ((inv.quantities.total_cartes_face : Int) - 3)]

/-- The page-slicing performed by `_add_card_pages`: page `p` holds the slice
`cards[p * cap : min((p+1) * cap, len(cards))]`, for
`total_pages = (len(cards) + cap - 1) // cap` pages. -/
def pages_chunk (l : List CardPath) (cap : Nat) : List (List CardPath) :=
  (List.range ((l.length + cap - 1) / cap)).map (fun p => (l.drop (p * cap)).take cap)

/-- `_add_card_pages`, with the drawing calls abstracted away: the content of
each emitted page, in order. -/
def add_card_pages (cards : List CardPath) (layout : LayoutConfig) : List (List CardPath) :=
  pages_chunk cards layout.cards_per_page

/-- `scan_card_files`: the filesystem is modelled as an `Option` folder
listing — `none` when the cards directory does not exist (then the source
raises `FileNotFoundError`), `some files` with the png files found inside
otherwise. -/
def scan_card_files (folder : Option (List CardPath)) : Except String (List CardPath) :=
  match folder with
  | none => Except.error "Cards directory not found"
  | some files => Except.ok files

/-- The generation pipeline of `main` and `CardPDFGenerator.generate`: scan,
categorize, then produce the instructions summary and the card pages.  On a
scan failure nothing is produced. -/
def run_generator (folder : Option (List CardPath)) :
    Except String (List SummaryItem × List (List CardPath)) :=
  match scan_card_files folder with
  | Except.error e => Except.error e
  | Except.ok files =>
    Except.ok (generate_content_summary (categorize_cards files),
      add_card_pages (prepare_card_list (categorize_cards files)) calculate_layout)

/-- Keep only the first file whose name is `nm`, dropping later duplicates;
files with other names are untouched.  Used to compare a file list against
the same list with a duplicated category image reduced to one occurrence. -/
def keepFirst (nm : String) : List CardPath → List CardPath
  | [] => []
  | p :: rest =>
    if p.name = nm then p :: rest.filter (fun q => decide (q.name ≠ nm))
    else p :: keepFirst nm rest

/-- Folder with all five known images plus three uncategorized ones. -/
def exampleAllFiles : List CardPath :=
  [⟨"Cartes", "Simple Villageois.png"⟩, ⟨"Cartes", "Loup Garou.png"⟩,
   ⟨"Cartes", "Plumes du corbeau.png"⟩, ⟨"Cartes", "Capitaine.png"⟩,
   ⟨"Cartes", "Dos-Cartes.png"⟩, ⟨"Cartes", "Sorciere.png"⟩,
   ⟨"Cartes", "Voyante.png"⟩, ⟨"Cartes", "Chasseur.png"⟩]

/-- Folder containing only the wolf-card image. -/
def exampleWolfOnly : List CardPath := [⟨"Cartes", "Loup Garou.png"⟩]

/-- A folder in which the villager image filename occurs twice. -/
def exampleDupFiles : List CardPath :=
  [⟨"Cartes", "Simple Villageois.png"⟩, ⟨"Autres", "Simple Villageois.png"⟩,
   ⟨"Cartes", "Sorciere.png"⟩]

/-- Seven distinct cards, enough to fill one six-card page and spill onto a
second. -/
def exampleSevenCards : List CardPath :=
  [⟨"Cartes", "a.png"⟩, ⟨"Cartes", "b.png"⟩, ⟨"Cartes", "c.png"⟩,
   ⟨"Cartes", "d.png"⟩, ⟨"Cartes", "e.png"⟩, ⟨"Cartes", "f.png"⟩,
   ⟨"Cartes", "g.png"⟩]

/-- The filename table recognizes `s` as category `t` exactly when `s` is
that category's bound filename. -/
theorem type_mapping_eq_some_iff (s : String) (t : CardType) :
    type_mapping s = some t ↔ s = t.value := by
  cases t <;> simp only [type_mapping, CardType.value] <;>
    split_ifs with h1 h2 h3 h4 h5 <;> simp_all

/-- The category buckets built by the categorization loop: bucket `t` is the
initial bucket followed by the input files whose name is `t`'s filename, in
input order. -/
theorem categorize_loop_fst (t : CardType) :
    ∀ (files : List CardPath) (cat : CardType → List CardPath) (others : List CardPath),
      (categorize_loop files cat others).1 t =
        cat t ++ files.filter (fun p => decide (p.name = t.value)) := by
  intro files
  induction files with
  | nil => intro cat others; simp [categorize_loop]
  | cons p rest ih =>
    intro cat others
    rcases htm : type_mapping p.name with _ | u
    · have hne : ¬ p.name = t.value := by
        intro h
        have h2 : type_mapping p.name = some t := (type_mapping_eq_some_iff p.name t).mpr h
        rw [htm] at h2
        exact Option.noConfusion h2
      simp only [categorize_loop, htm]
      rw [ih]
      simp [List.filter_cons, hne]
    · simp only [categorize_loop, htm]
      rw [ih]
      by_cases htu : t = u
      · subst htu
        have hname : p.name = t.value := (type_mapping_eq_some_iff p.name t).mp htm
        simp [List.filter_cons, hname]
      · have hname : ¬ p.name = t.value := by
          intro h
          have h2 : type_mapping p.name = some t := (type_mapping_eq_some_iff p.name t).mpr h
          rw [htm] at h2
          injection h2 with h3
          exact htu h3.symm
        simp [List.filter_cons, hname, if_neg htu]

/-- The `others` list built by the categorization loop: the initial list
followed by the input files whose name matches no category, in input order. -/
theorem categorize_loop_snd :
    ∀ (files : List CardPath) (cat : CardType → List CardPath) (others : List CardPath),
      (categorize_loop files cat others).2 =
        others ++ files.filter (fun p => (type_mapping p.name).isNone) := by
  intro files
  induction files with
  | nil => intro cat others; simp [categorize_loop]
  | cons p rest ih =>
    intro cat others
    rcases htm : type_mapping p.name with _ | u
    · simp only [categorize_loop, htm]
      rw [ih]
      simp [List.filter_cons, htm]
    · simp only [categorize_loop, htm]
      rw [ih]
      simp [List.filter_cons, htm]

/-- Bucket `t` of a categorized inventory is the filter of the scanned files
by `t`'s filename, in scan order. -/
theorem categorize_cards_categorized (files : List CardPath) (t : CardType) :
    (categorize_cards files).categorized t =
      files.filter (fun p => decide (p.name = t.value)) := by
  simpa [categorize_cards] using categorize_loop_fst t files (fun _ => []) []

/-- The `others` of a categorized inventory are the files matching no known
filename, in scan order. -/
theorem categorize_cards_others (files : List CardPath) :
    (categorize_cards files).others =
      files.filter (fun p => (type_mapping p.name).isNone) := by
  simpa [categorize_cards] using categorize_loop_snd files (fun _ => []) []

/-- The quantities of a categorized inventory are computed by
`calculate_quantities` from its buckets and others. -/
theorem categorize_cards_quantities (files : List CardPath) :
    (categorize_cards files).quantities =
      calculate_quantities ((categorize_cards files).categorized)
        ((categorize_cards files).others) := rfl

/-- A category bucket is nonempty exactly when some scanned file bears that
category's filename. -/
theorem categorized_ne_nil_iff (files : List CardPath) (t : CardType) :
    (categorize_cards files).categorized t ≠ [] ↔ ∃ p ∈ files, p.name = t.value := by
  rw [categorize_cards_categorized]
  simp [List.filter_eq_nil_iff]

theorem calculate_quantities_villageois (cat : CardType → List CardPath)
    (others : List CardPath) :
    (calculate_quantities cat others).villageois_count =
      if cat CardType.VILLAGER ≠ [] then 6 else 0 := rfl

theorem calculate_quantities_loup (cat : CardType → List CardPath)
    (others : List CardPath) :
    (calculate_quantities cat others).loup_garou_count =
      if cat CardType.WEREWOLF ≠ [] then 4 else 0 := rfl

theorem calculate_quantities_plumes (cat : CardType → List CardPath)
    (others : List CardPath) :
    (calculate_quantities cat others).plumes_corbeau_count =
      if cat CardType.FEATHERS ≠ [] then 2 else 0 := rfl

theorem calculate_quantities_capitaine (cat : CardType → List CardPath)
    (others : List CardPath) :
    (calculate_quantities cat others).capitaine_count =
      if cat CardType.CAPTAIN ≠ [] then 2 else 0 := rfl

theorem calculate_quantities_autres (cat : CardType → List CardPath)
    (others : List CardPath) :
    (calculate_quantities cat others).autres_cartes = others.length := rfl

theorem calculate_quantities_face (cat : CardType → List CardPath)
    (others : List CardPath) :
    (calculate_quantities cat others).total_cartes_face =
      others.length +
        ((calculate_quantities cat others).villageois_count +
         (calculate_quantities cat others).loup_garou_count +
         (calculate_quantities cat others).plumes_corbeau_count +
         (calculate_quantities cat others).capitaine_count) := rfl

theorem calculate_quantities_dos (cat : CardType → List CardPath)
    (others : List CardPath) :
    (calculate_quantities cat others).dos_count =
      if cat CardType.BACK ≠ [] then
        (calculate_quantities cat others).total_cartes_face - 6
      else 0 := rfl

theorem calculate_quantities_total (cat : CardType → List CardPath)
    (others : List CardPath) :
    (calculate_quantities cat others).total_cartes =
      (calculate_quantities cat others).total_cartes_face +
        (calculate_quantities cat others).dos_count := rfl

/-- Concrete value of the computed A4 layout: 80mm square cards, 2 columns,
3 rows, 20mm/3 horizontal gap (in points, `mm = 360/127`). -/
theorem calculate_layout_eq :
    calculate_layout =
      { card_size := 28800 / 127, cards_per_row := 2, cards_per_col := 3,
        horizontal_spacing := 2400 / 127 } := by
  unfold calculate_layout A4_width A4_height MARGIN CARD_MAX_SIZE CARD_SPACING_V
    CARD_SPACING_H_MIN mm
  norm_num [LayoutConfig.mk.injEq, min_def, Int.toNat]

/-- No cards produce no pages. -/
theorem pages_chunk_nil (cap : Nat) : pages_chunk [] cap = [] := by
  unfold pages_chunk
  have h : (([] : List CardPath).length + cap - 1) / cap = 0 := by
    show (0 + cap - 1) / cap = 0
    rcases Nat.eq_zero_or_pos cap with h0 | h0
    · subst h0; rfl
    · exact Nat.div_eq_of_lt (by omega)
  rw [h]
  rfl

/-- Number of emitted pages: the ceiling division computed by the source. -/
theorem pages_chunk_length (l : List CardPath) (cap : Nat) :
    (pages_chunk l cap).length = (l.length + cap - 1) / cap := by
  simp [pages_chunk]

theorem pages_chunk_flatten_aux (cap : Nat) (hcap : 0 < cap) :
    ∀ (n : Nat) (l : List CardPath), l.length ≤ n → (pages_chunk l cap).flatten = l := by
  intro n
  induction n with
  | zero =>
    intro l hl
    have h : l = [] := List.length_eq_zero.mp (Nat.le_zero.mp hl)
    subst h
    rw [pages_chunk_nil]
    rfl
  | succ n ih =>
    intro l hl
    rcases Nat.eq_zero_or_pos l.length with hlen | hlen
    · have h : l = [] := List.length_eq_zero.mp hlen
      subst h
      rw [pages_chunk_nil]
      rfl
    · have hT : (l.length + cap - 1) / cap = ((l.drop cap).length + cap - 1) / cap + 1 := by
        rw [List.length_drop]
        have h1 : l.length + cap - 1 = (l.length - 1) + cap := by omega
        rw [h1, Nat.add_div_right _ hcap]
        rcases le_or_lt cap l.length with hc | hc
        · have h2 : l.length - cap + cap - 1 = l.length - 1 := by omega
          rw [h2]
        · have h2 : l.length - cap = 0 := by omega
          rw [h2]
          have h3 : (0 + cap - 1) / cap = 0 := Nat.div_eq_of_lt (by omega)
          have h4 : (l.length - 1) / cap = 0 := Nat.div_eq_of_lt (by omega)
          rw [h3, h4]
      unfold pages_chunk
      rw [hT, List.range_succ_eq_map]
      simp only [List.map_cons, List.flatten_cons, List.map_map]
      have hfg : ((fun p => (l.drop (p * cap)).take cap) ∘ Nat.succ) =
          (fun p => ((l.drop cap).drop (p * cap)).take cap) := by
        funext p
        simp only [Function.comp_apply]
        rw [List.drop_drop]
        have hmul : Nat.succ p * cap = cap + p * cap := by
          rw [Nat.succ_mul]
          omega
        rw [hmul]
      rw [hfg]
      have hrest :
          ((List.range (((l.drop cap).length + cap - 1) / cap)).map
            (fun p => ((l.drop cap).drop (p * cap)).take cap)).flatten = l.drop cap := by
        have hdl : (l.drop cap).length ≤ n := by
          rw [List.length_drop]
          omega
        exact ih (l.drop cap) hdl
      rw [hrest]
      simp [List.take_append_drop]

/-- Pagination invariant: concatenating the pages in order reproduces the
flat card list, with no duplication or omission. -/
theorem pages_chunk_flatten (cap : Nat) (hcap : 0 < cap) (l : List CardPath) :
    (pages_chunk l cap).flatten = l :=
  pages_chunk_flatten_aux cap hcap l.length l (Nat.le_refl _)

/-- Every page other than the last holds exactly `cap` cards. -/
theorem pages_chunk_get_length (l : List CardPath) (cap : Nat) (hcap : 0 < cap)
    (i : Nat) (h : i + 1 < (pages_chunk l cap).length) :
    ((pages_chunk l cap).get ⟨i, Nat.lt_of_succ_lt h⟩).length = cap := by
  have hdiv : i + 1 < (l.length + cap - 1) / cap := by
    rw [← pages_chunk_length l cap]
    exact h
  simp only [pages_chunk, List.get_eq_getElem, List.getElem_map, List.getElem_range,
    List.length_take, List.length_drop]
  have h2 : (i + 2) * cap ≤ l.length + cap - 1 :=
    (Nat.le_div_iff_mul_le hcap).mp (by omega)
  have h3 : (i + 2) * cap = i * cap + 2 * cap := by ring
  rw [h3] at h2
  omega

/-- No page holds more than `cap` cards. -/
theorem pages_chunk_mem_length (l : List CardPath) (cap : Nat)
    (page : List CardPath) (hmem : page ∈ pages_chunk l cap) :
    page.length ≤ cap := by
  simp only [pages_chunk, List.mem_map, List.mem_range] at hmem
  rcases hmem with ⟨p, _, rfl⟩
  rw [List.length_take]
  exact Nat.min_le_left _ _

/-- The flat card list of an inventory whose quantities were computed by
`calculate_quantities`: the source's presence-and-positivity guards collapse,
because a countable quantity is positive exactly when its bucket is nonempty
and the back count is zero whenever the back bucket is empty. -/
theorem prepare_card_list_inv (inv : CardInventory)
    (hq : inv.quantities = calculate_quantities inv.categorized inv.others) :
    prepare_card_list inv =
      List.replicate inv.quantities.villageois_count
        ((inv.categorized CardType.VILLAGER).headI) ++
      List.replicate inv.quantities.loup_garou_count
        ((inv.categorized CardType.WEREWOLF).headI) ++
      List.replicate inv.quantities.plumes_corbeau_count
        ((inv.categorized CardType.FEATHERS).headI) ++
      List.replicate inv.quantities.capitaine_count
        ((inv.categorized CardType.CAPTAIN).headI) ++
      inv.others ++
      List.replicate inv.quantities.dos_count
        ((inv.categorized CardType.BACK).headI) := by
  unfold prepare_card_list
  have hv : (if inv.categorized CardType.VILLAGER ≠ [] ∧
        0 < inv.quantities.villageois_count then
      List.replicate inv.quantities.villageois_count
        ((inv.categorized CardType.VILLAGER).headI)
    else []) =
      List.replicate inv.quantities.villageois_count
        ((inv.categorized CardType.VILLAGER).headI) := by
    by_cases h : inv.categorized CardType.VILLAGER = []
    · have h0 : inv.quantities.villageois_count = 0 := by
        rw [hq, calculate_quantities_villageois, if_neg (by simp [h])]
      rw [h0]
      simp
    · have h6 : inv.quantities.villageois_count = 6 := by
        rw [hq, calculate_quantities_villageois, if_pos h]
      rw [if_pos ⟨h, by rw [h6]; omega⟩]
  have hl : (if inv.categorized CardType.WEREWOLF ≠ [] ∧
        0 < inv.quantities.loup_garou_count then
      List.replicate inv.quantities.loup_garou_count
        ((inv.categorized CardType.WEREWOLF).headI)
    else []) =
      List.replicate inv.quantities.loup_garou_count
        ((inv.categorized CardType.WEREWOLF).headI) := by
    by_cases h : inv.categorized CardType.WEREWOLF = []
    · have h0 : inv.quantities.loup_garou_count = 0 := by
        rw [hq, calculate_quantities_loup, if_neg (by simp [h])]
      rw [h0]
      simp
    · have h4 : inv.quantities.loup_garou_count = 4 := by
        rw [hq, calculate_quantities_loup, if_pos h]
      rw [if_pos ⟨h, by rw [h4]; omega⟩]
  have hp : (if inv.categorized CardType.FEATHERS ≠ [] ∧
        0 < inv.quantities.plumes_corbeau_count then
      List.replicate inv.quantities.plumes_corbeau_count
        ((inv.categorized CardType.FEATHERS).headI)
    else []) =
      List.replicate inv.quantities.plumes_corbeau_count
        ((inv.categorized CardType.FEATHERS).headI) := by
    by_cases h : inv.categorized CardType.FEATHERS = []
    · have h0 : inv.quantities.plumes_corbeau_count = 0 := by
        rw [hq, calculate_quantities_plumes, if_neg (by simp [h])]
      rw [h0]
      simp
    · have h2 : inv.quantities.plumes_corbeau_count = 2 := by
        rw [hq, calculate_quantities_plumes, if_pos h]
      rw [if_pos ⟨h, by rw [h2]; omega⟩]
  have hc : (if inv.categorized CardType.CAPTAIN ≠ [] ∧
        0 < inv.quantities.capitaine_count then
      List.replicate inv.quantities.capitaine_count
        ((inv.categorized CardType.CAPTAIN).headI)
    else []) =
      List.replicate inv.quantities.capitaine_count
        ((inv.categorized CardType.CAPTAIN).headI) := by
    by_cases h : inv.categorized CardType.CAPTAIN = []
    · have h0 : inv.quantities.capitaine_count = 0 := by
        rw [hq, calculate_quantities_capitaine, if_neg (by simp [h])]
      rw [h0]
      simp
    · have h2 : inv.quantities.capitaine_count = 2 := by
        rw [hq, calculate_quantities_capitaine, if_pos h]
      rw [if_pos ⟨h, by rw [h2]; omega⟩]
  have hb : (if inv.categorized CardType.BACK ≠ [] ∧
        0 < inv.quantities.dos_count then
      List.replicate inv.quantities.dos_count
        ((inv.categorized CardType.BACK).headI)
    else []) =
      List.replicate inv.quantities.dos_count
        ((inv.categorized CardType.BACK).headI) := by
    by_cases h : inv.categorized CardType.BACK = []
    · have h0 : inv.quantities.dos_count = 0 := by
        rw [hq, calculate_quantities_dos, if_neg (by simp [h])]
      rw [h0]
      simp
    · by_cases hd : 0 < inv.quantities.dos_count
      · rw [if_pos ⟨h, hd⟩]
      · have h0 : inv.quantities.dos_count = 0 := by omega
        rw [h0]
        simp
  rw [hv, hl, hp, hc, hb]

/-- The summary block of an inventory whose quantities were computed by
`calculate_quantities`: the source's presence-and-positivity guards on the
four countable lines reduce to positivity of the printed quantity. -/
theorem generate_content_summary_inv (inv : CardInventory)
    (hq : inv.quantities = calculate_quantities inv.categorized inv.others) :
    generate_content_summary inv =
      (if 0 < inv.quantities.villageois_count then
        [SummaryItem.qtyLine inv.quantities.villageois_count
          "Villageois - 3x Villageois-Villageois"]
      else []) ++
      (if 0 < inv.quantities.loup_garou_count then
        [SummaryItem.qtyLine inv.quantities.loup_garou_count "Loup Garou (separes)"]
      else []) ++
      (if 0 < inv.quantities.plumes_corbeau_count then
        [SummaryItem.qtyLine inv.quantities.plumes_corbeau_count "Plumes - 1x collee"]
      else []) ++
      (if 0 < inv.quantities.capitaine_count then
        [SummaryItem.qtyLine inv.quantities.capitaine_count "Capitaine - 1x collee"]
      else []) ++
      (if 0 < inv.quantities.autres_cartes then
        [SummaryItem.othersLine inv.quantities.autres_cartes]
      else []) ++
      (if inv.categorized CardType.BACK ≠ [] then
        [SummaryItem.backLine inv.quantities.dos_count]
      else []) ++
      [SummaryItem.blank,
       SummaryItem.totalLine ((inv.quantities.total_cartes_face : Int) - 3)] := by
  unfold generate_content_summary
  have hv : (if inv.categorized CardType.VILLAGER ≠ [] ∧
        0 < inv.quantities.villageois_count then
      [SummaryItem.qtyLine inv.quantities.villageois_count
        "Villageois - 3x Villageois-Villageois"]
    else []) =
      (if 0 < inv.quantities.villageois_count then
        [SummaryItem.qtyLine inv.quantities.villageois_count
          "Villageois - 3x Villageois-Villageois"]
      else []) := by
    by_cases h : inv.categorized CardType.VILLAGER = []
    · have h0 : inv.quantities.villageois_count = 0 := by
        rw [hq, calculate_quantities_villageois, if_neg (by simp [h])]
      rw [h0]
      simp
    · have h6 : inv.quantities.villageois_count = 6 := by
        rw [hq, calculate_quantities_villageois, if_pos h]
      rw [if_pos ⟨h, by rw [h6]; omega⟩, if_pos (by rw [h6]; omega)]
  have hl : (if inv.categorized CardType.WEREWOLF ≠ [] ∧
        0 < inv.quantities.loup_garou_count then
      [SummaryItem.qtyLine inv.quantities.loup_garou_count "Loup Garou (separes)"]
    else []) =
      (if 0 < inv.quantities.loup_garou_count then
        [SummaryItem.qtyLine inv.quantities.loup_garou_count "Loup Garou (separes)"]
      else []) := by
    by_cases h : inv.categorized CardType.WEREWOLF = []
    · have h0 : inv.quantities.loup_garou_count = 0 := by
        rw [hq, calculate_quantities_loup, if_neg (by simp [h])]
      rw [h0]
      simp
    · have h4 : inv.quantities.loup_garou_count = 4 := by
        rw [hq, calculate_quantities_loup, if_pos h]
      rw [if_pos ⟨h, by rw [h4]; omega⟩, if_pos (by rw [h4]; omega)]
  have hp : (if inv.categorized CardType.FEATHERS ≠ [] ∧
        0 < inv.quantities.plumes_corbeau_count then
      [SummaryItem.qtyLine inv.quantities.plumes_corbeau_count "Plumes - 1x collee"]
    else []) =
      (if 0 < inv.quantities.plumes_corbeau_count then
        [SummaryItem.qtyLine inv.quantities.plumes_corbeau_count "Plumes - 1x collee"]
      else []) := by
    by_cases h : inv.categorized CardType.FEATHERS = []
    · have h0 : inv.quantities.plumes_corbeau_count = 0 := by
        rw [hq, calculate_quantities_plumes, if_neg (by simp [h])]
      rw [h0]
      simp
    · have h2 : inv.quantities.plumes_corbeau_count = 2 := by
        rw [hq, calculate_quantities_plumes, if_pos h]
      rw [if_pos ⟨h, by rw [h2]; omega⟩, if_pos (by rw [h2]; omega)]
  have hc : (if inv.categorized CardType.CAPTAIN ≠ [] ∧
        0 < inv.quantities.capitaine_count then
      [SummaryItem.qtyLine inv.quantities.capitaine_count "Capitaine - 1x collee"]
    else []) =
      (if 0 < inv.quantities.capitaine_count then
        [SummaryItem.qtyLine inv.quantities.capitaine_count "Capitaine - 1x collee"]
      else []) := by
    by_cases h : inv.categorized CardType.CAPTAIN = []
    · have h0 : inv.quantities.capitaine_count = 0 := by
        rw [hq, calculate_quantities_capitaine, if_neg (by simp [h])]
      rw [h0]
      simp
    · have h2 : inv.quantities.capitaine_count = 2 := by
        rw [hq, calculate_quantities_capitaine, if_pos h]
      rw [if_pos ⟨h, by rw [h2]; omega⟩, if_pos (by rw [h2]; omega)]
  rw [hv, hl, hp, hc]

/-- Finding the first match equals taking the head of the filtered list. -/
theorem find?_eq_head?_filter (P : CardPath → Bool) :
    ∀ l : List CardPath, l.find? P = (l.filter P).head? := by
  intro l
  induction l with
  | nil => rfl
  | cons p rest ih =>
    by_cases h : P p = true
    · rw [List.find?_cons_of_pos _ h, List.filter_cons, if_pos h]
      rfl
    · rw [List.find?_cons_of_neg _ h, List.filter_cons, if_neg h, ih]

/-- Dropping later duplicates of filename `nm` does not change any filter by
a predicate that never accepts `nm`-named files. -/
theorem keepFirst_filter_of_ne (nm : String) (P : CardPath → Bool)
    (hP : ∀ p : CardPath, P p = true → p.name ≠ nm) :
    ∀ l : List CardPath, (keepFirst nm l).filter P = l.filter P := by
  intro l
  induction l with
  | nil => rfl
  | cons p rest ih =>
    by_cases h : p.name = nm
    · simp only [keepFirst, if_pos h]
      have htail : (rest.filter (fun q => decide (q.name ≠ nm))).filter P =
          rest.filter P := by
        rw [List.filter_filter]
        apply List.filter_congr
        intro a _
        by_cases hPa : P a = true
        · simp [hPa, hP a hPa]
        · simp only [Bool.not_eq_true] at hPa
          simp [hPa]
      simp only [List.filter_cons]
      rw [htail]
    · simp only [keepFirst, if_neg h]
      simp only [List.filter_cons]
      rw [ih]

/-- After dropping later duplicates of `nm`, the files named `nm` are the
first such file of the original list (if any). -/
theorem keepFirst_filter_same (nm : String) :
    ∀ l : List CardPath,
      (keepFirst nm l).filter (fun p => decide (p.name = nm)) =
        (l.filter (fun p => decide (p.name = nm))).take 1 := by
  intro l
  induction l with
  | nil => rfl
  | cons p rest ih =>
    by_cases h : p.name = nm
    · simp only [keepFirst, if_pos h]
      have hnil : (rest.filter (fun q => decide (q.name ≠ nm))).filter
          (fun p => decide (p.name = nm)) = [] := by
        rw [List.filter_filter, List.filter_eq_nil_iff]
        intro a _
        by_cases ha : a.name = nm <;> simp [ha]
      rw [List.filter_cons, List.filter_cons]
      have hd : (decide (p.name = nm)) = true := decide_eq_true h
      rw [if_pos hd, if_pos hd, hnil]
      simp
    · simp only [keepFirst, if_neg h]
      rw [List.filter_cons, List.filter_cons,
        if_neg (by simp [h]), if_neg (by simp [h]), ih]

/-- `calculate_quantities` depends only on which buckets are nonempty and on
the `others` list. -/
theorem calculate_quantities_congr (cat1 cat2 : CardType → List CardPath)
    (others1 others2 : List CardPath)
    (hcat : ∀ u : CardType, cat1 u = [] ↔ cat2 u = []) (ho : others1 = others2) :
    calculate_quantities cat1 others1 = calculate_quantities cat2 others2 := by
  subst ho
  have h1 : (cat1 CardType.VILLAGER ≠ []) ↔ (cat2 CardType.VILLAGER ≠ []) :=
    not_congr (hcat _)
  have h2 : (cat1 CardType.WEREWOLF ≠ []) ↔ (cat2 CardType.WEREWOLF ≠ []) :=
    not_congr (hcat _)
  have h3 : (cat1 CardType.FEATHERS ≠ []) ↔ (cat2 CardType.FEATHERS ≠ []) :=
    not_congr (hcat _)
  have h4 : (cat1 CardType.CAPTAIN ≠ []) ↔ (cat2 CardType.CAPTAIN ≠ []) :=
    not_congr (hcat _)
  have h5 : (cat1 CardType.BACK ≠ []) ↔ (cat2 CardType.BACK ≠ []) :=
    not_congr (hcat _)
  unfold calculate_quantities
  simp only [h1, h2, h3, h4, h5]

/-- Reducing a duplicated category filename to its first occurrence leaves
every derived quantity unchanged. -/
theorem categorize_keepFirst_quantities (files : List CardPath) (t : CardType) :
    (categorize_cards (keepFirst t.value files)).quantities =
      (categorize_cards files).quantities := by
  rw [categorize_cards_quantities, categorize_cards_quantities]
  apply calculate_quantities_congr
  · intro u
    by_cases hu : u = t
    · subst hu
      rw [categorize_cards_categorized, categorize_cards_categorized,
        keepFirst_filter_same]
      rw [List.take_eq_nil_iff]
      simp
    · have hval : u.value ≠ t.value := by
        intro h
        apply hu
        have ha : type_mapping u.value = some u :=
          (type_mapping_eq_some_iff _ _).mpr rfl
        rw [h] at ha
        have hb : type_mapping t.value = some t :=
          (type_mapping_eq_some_iff _ _).mpr rfl
        rw [ha] at hb
        injection hb
      have hfil := keepFirst_filter_of_ne t.value (fun p => decide (p.name = u.value))
        (by
          intro p hp hname
          simp only [decide_eq_true_eq] at hp
          exact hval (by rw [← hp, hname])) files
      rw [categorize_cards_categorized, categorize_cards_categorized, hfil]
  · rw [categorize_cards_others, categorize_cards_others]
    apply keepFirst_filter_of_ne
    intro p hp hname
    rw [hname, (type_mapping_eq_some_iff t.value t).mpr rfl] at hp
    simp at hp

/-- C1: for every inventory computed by `calculate_quantities`, the derived
back count equals `max(0, total_face_cards - 6)` when the back-card image is
among the categorized inputs and `0` otherwise, and the derived total equals
`total_face_cards + back_count`; in particular, for a folder with all five
known images plus three uncategorized ones, `total_face_cards = 17`,
`back_count = 11` and `total_cards = 28`. -/
theorem claim_C1_back_count_rule :
    (∀ (cat : CardType → List CardPath) (others : List CardPath),
      ((calculate_quantities cat others).dos_count : Int) =
        (if cat CardType.BACK ≠ [] then
          max 0 (((calculate_quantities cat others).total_cartes_face : Int) - 6)
        else 0) ∧
      (calculate_quantities cat others).total_cartes =
        (calculate_quantities cat others).total_cartes_face +
          (calculate_quantities cat others).dos_count) ∧
    ((categorize_cards exampleAllFiles).quantities.total_cartes_face = 17 ∧
     (categorize_cards exampleAllFiles).quantities.dos_count = 11 ∧
     (categorize_cards exampleAllFiles).quantities.total_cartes = 28) := by
  constructor
  · intro cat others
    constructor
    · rw [calculate_quantities_dos]
      by_cases h : cat CardType.BACK ≠ []
      · rw [if_pos h, if_pos h]
        omega
      · rw [if_neg h, if_neg h]
        simp
    · exact calculate_quantities_total cat others
  · exact ⟨by decide, by decide, by decide⟩

/-- C1 witness: the back-count rule instantiated at the empty inventory. -/
theorem claim_C1_back_count_rule_witness :
    (calculate_quantities (fun _ => []) []).total_cartes =
      (calculate_quantities (fun _ => []) []).total_cartes_face +
        (calculate_quantities (fun _ => []) []).dos_count :=
  (claim_C1_back_count_rule.1 (fun _ => []) []).2

/-- C2: each countable category receives its base quantity (6, 4, 2, 2)
exactly when a file with its filename is present and 0 otherwise, every
uncategorized file contributes one, and `total_face_cards` is the sum of the
four category quantities plus the uncategorized count; in particular a
wolf-only folder yields quantities 0 / 4 / 4 / 0. -/
theorem claim_C2_base_quantities :
    (∀ files : List CardPath,
      ((categorize_cards files).quantities.villageois_count =
        if ∃ p ∈ files, p.name = CardType.VILLAGER.value then 6 else 0) ∧
      ((categorize_cards files).quantities.loup_garou_count =
        if ∃ p ∈ files, p.name = CardType.WEREWOLF.value then 4 else 0) ∧
      ((categorize_cards files).quantities.plumes_corbeau_count =
        if ∃ p ∈ files, p.name = CardType.FEATHERS.value then 2 else 0) ∧
      ((categorize_cards files).quantities.capitaine_count =
        if ∃ p ∈ files, p.name = CardType.CAPTAIN.value then 2 else 0) ∧
      ((categorize_cards files).quantities.autres_cartes =
        (files.filter (fun p => (type_mapping p.name).isNone)).length) ∧
      ((categorize_cards files).quantities.total_cartes_face =
        (categorize_cards files).quantities.villageois_count +
        (categorize_cards files).quantities.loup_garou_count +
        (categorize_cards files).quantities.plumes_corbeau_count +
        (categorize_cards files).quantities.capitaine_count +
        (categorize_cards files).quantities.autres_cartes)) ∧
    ((categorize_cards exampleWolfOnly).quantities.villageois_count = 0 ∧
     (categorize_cards exampleWolfOnly).quantities.loup_garou_count = 4 ∧
     (categorize_cards exampleWolfOnly).quantities.total_cartes_face = 4 ∧
     (categorize_cards exampleWolfOnly).quantities.dos_count = 0) := by
  constructor
  · intro files
    have key : ∀ (t : CardType) (k : Nat),
        (if (categorize_cards files).categorized t ≠ [] then k else 0) =
          if ∃ p ∈ files, p.name = t.value then k else 0 := by
      intro t k
      by_cases h : (categorize_cards files).categorized t ≠ []
      · rw [if_pos h, if_pos ((categorized_ne_nil_iff files t).mp h)]
      · rw [if_neg h, if_neg (fun he => h ((categorized_ne_nil_iff files t).mpr he))]
    refine ⟨?_, ?_, ?_, ?_, ?_, ?_⟩
    · rw [categorize_cards_quantities, calculate_quantities_villageois]
      exact key CardType.VILLAGER 6
    · rw [categorize_cards_quantities, calculate_quantities_loup]
      exact key CardType.WEREWOLF 4
    · rw [categorize_cards_quantities, calculate_quantities_plumes]
      exact key CardType.FEATHERS 2
    · rw [categorize_cards_quantities, calculate_quantities_capitaine]
      exact key CardType.CAPTAIN 2
    · rw [categorize_cards_quantities, calculate_quantities_autres,
        categorize_cards_others]
    · rw [categorize_cards_quantities, calculate_quantities_face,
        calculate_quantities_autres]
      omega
  · exact ⟨by decide, by decide, by decide, by decide⟩

/-- C2 witness: the villager-quantity rule instantiated at the wolf-only
folder. -/
theorem claim_C2_base_quantities_witness :
    (categorize_cards exampleWolfOnly).quantities.villageois_count =
      if ∃ p ∈ exampleWolfOnly, p.name = CardType.VILLAGER.value then 6 else 0 :=
  (claim_C2_base_quantities.1 exampleWolfOnly).1

/-- C3: for every card list and layout with positive page capacity,
concatenating the pages reproduces the card list exactly, every page except
possibly the last holds exactly `rows * columns` cards, and no page exceeds
that capacity. -/
theorem claim_C3_pagination (cards : List CardPath) (layout : LayoutConfig)
    (hcap : 0 < layout.cards_per_page) :
    (add_card_pages cards layout).flatten = cards ∧
    (∀ (i : Nat) (h : i + 1 < (add_card_pages cards layout).length),
      ((add_card_pages cards layout).get ⟨i, Nat.lt_of_succ_lt h⟩).length =
        layout.cards_per_page) ∧
    (∀ page ∈ add_card_pages cards layout, page.length ≤ layout.cards_per_page) := by
  refine ⟨pages_chunk_flatten _ hcap cards, ?_, ?_⟩
  · intro i h
    exact pages_chunk_get_length cards _ hcap i h
  · intro page hmem
    exact pages_chunk_mem_length cards _ page hmem

/-- C3 witness: pagination of seven cards with the computed A4 layout
(capacity 6) restores the original list. -/
theorem claim_C3_pagination_witness :
    0 < calculate_layout.cards_per_page ∧
    (add_card_pages exampleSevenCards calculate_layout).flatten = exampleSevenCards :=
  ⟨by rw [calculate_layout_eq]; decide,
   (claim_C3_pagination exampleSevenCards calculate_layout
     (by rw [calculate_layout_eq]; decide)).1⟩

/-- C4: the flat card list is the countable categories in declared order
(villager, wolf, feathers, captain), each bucket's representative repeated by
its computed quantity, then the uncategorized images once each in scan
order, then the back image repeated `back_count` times. -/
theorem claim_C4_expansion_order : ∀ files : List CardPath,
    (prepare_card_list (categorize_cards files) =
      List.replicate (categorize_cards files).quantities.villageois_count
        (((categorize_cards files).categorized CardType.VILLAGER).headI) ++
      List.replicate (categorize_cards files).quantities.loup_garou_count
        (((categorize_cards files).categorized CardType.WEREWOLF).headI) ++
      List.replicate (categorize_cards files).quantities.plumes_corbeau_count
        (((categorize_cards files).categorized CardType.FEATHERS).headI) ++
      List.replicate (categorize_cards files).quantities.capitaine_count
        (((categorize_cards files).categorized CardType.CAPTAIN).headI) ++
      (categorize_cards files).others ++
      List.replicate (categorize_cards files).quantities.dos_count
        (((categorize_cards files).categorized CardType.BACK).headI)) ∧
    (categorize_cards files).others =
      files.filter (fun p => (type_mapping p.name).isNone) := by
  intro files
  exact ⟨prepare_card_list_inv (categorize_cards files)
      (categorize_cards_quantities files),
    categorize_cards_others files⟩

/-- C4 witness: the scan-order clause instantiated at the full example
folder. -/
theorem claim_C4_expansion_order_witness :
    (categorize_cards exampleAllFiles).others =
      exampleAllFiles.filter (fun p => (type_mapping p.name).isNone) :=
  (claim_C4_expansion_order exampleAllFiles).2

/-- C5: the computed layout has exactly 2 columns, card edge
`min(maxCardEdge, (printable_width - minHorizontalGap) / 2)`, horizontal gap
equal to the actual leftover width split over `columns + 1 = 3` slots, and
row count `floor(printable_height / (card_edge + vertical_gap))`. -/
theorem claim_C5_layout_geometry :
    calculate_layout.cards_per_row = 2 ∧
    calculate_layout.card_size =
      min (CARD_MAX_SIZE * mm)
        (((A4_width - 2 * MARGIN * mm) - CARD_SPACING_H_MIN * mm) / 2) ∧
    calculate_layout.horizontal_spacing =
      ((A4_width - 2 * MARGIN * mm) - 2 * calculate_layout.card_size) / (2 + 1) ∧
    (calculate_layout.cards_per_col : Int) =
      ⌊(A4_height - 2 * MARGIN * mm) /
        (calculate_layout.card_size + CARD_SPACING_V * mm)⌋ := by
  rw [calculate_layout_eq]
  refine ⟨rfl, ?_, ?_, ?_⟩
  · unfold A4_width MARGIN CARD_MAX_SIZE CARD_SPACING_H_MIN mm
    norm_num [min_def]
  · unfold A4_width MARGIN mm
    norm_num
  · unfold A4_height MARGIN CARD_SPACING_V mm
    norm_num

/-- C6: with the fixed A4 page and constants, two cards plus three gaps fit
the printable width, the rows fit the printable height, and the card edge
never exceeds the configured maximum. -/
theorem claim_C6_layout_invariant :
    calculate_layout.card_size * 2 + calculate_layout.horizontal_spacing * 3 ≤
      A4_width - 2 * MARGIN * mm ∧
    (calculate_layout.cards_per_col : ℚ) *
        (calculate_layout.card_size + CARD_SPACING_V * mm) ≤
      A4_height - 2 * MARGIN * mm ∧
    calculate_layout.card_size ≤ CARD_MAX_SIZE * mm := by
  rw [calculate_layout_eq]
  unfold A4_width A4_height MARGIN CARD_MAX_SIZE CARD_SPACING_V mm
  norm_num

/-- C7: the summary block holds one quantity line per countable category with
positive quantity in declared order, an uncategorized-count line exactly when
that count is nonzero, a back-count line exactly when the back image is
present (even with count 0), and a final total line carrying
`total_face_cards - 3`. -/
theorem claim_C7_summary : ∀ files : List CardPath,
    generate_content_summary (categorize_cards files) =
      (if 0 < (categorize_cards files).quantities.villageois_count then
        [SummaryItem.qtyLine (categorize_cards files).quantities.villageois_count
          "Villageois - 3x Villageois-Villageois"]
      else []) ++
      (if 0 < (categorize_cards files).quantities.loup_garou_count then
        [SummaryItem.qtyLine (categorize_cards files).quantities.loup_garou_count
          "Loup Garou (separes)"]
      else []) ++
      (if 0 < (categorize_cards files).quantities.plumes_corbeau_count then
        [SummaryItem.qtyLine (categorize_cards files).quantities.plumes_corbeau_count
          "Plumes - 1x collee"]
      else []) ++
      (if 0 < (categorize_cards files).quantities.capitaine_count then
        [SummaryItem.qtyLine (categorize_cards files).quantities.capitaine_count
          "Capitaine - 1x collee"]
      else []) ++
      (if 0 < (categorize_cards files).quantities.autres_cartes then
        [SummaryItem.othersLine (categorize_cards files).quantities.autres_cartes]
      else []) ++
      (if (categorize_cards files).categorized CardType.BACK ≠ [] then
        [SummaryItem.backLine (categorize_cards files).quantities.dos_count]
      else []) ++
      [SummaryItem.blank,
       SummaryItem.totalLine
         (((categorize_cards files).quantities.total_cartes_face : Int) - 3)] := by
  intro files
  exact generate_content_summary_inv (categorize_cards files)
    (categorize_cards_quantities files)

/-- C7 witness: the summary shape instantiated at the wolf-only folder. -/
theorem claim_C7_summary_witness :
    generate_content_summary (categorize_cards exampleWolfOnly) =
      (if 0 < (categorize_cards exampleWolfOnly).quantities.villageois_count then
        [SummaryItem.qtyLine (categorize_cards exampleWolfOnly).quantities.villageois_count
          "Villageois - 3x Villageois-Villageois"]
      else []) ++
      (if 0 < (categorize_cards exampleWolfOnly).quantities.loup_garou_count then
        [SummaryItem.qtyLine (categorize_cards exampleWolfOnly).quantities.loup_garou_count
          "Loup Garou (separes)"]
      else []) ++
      (if 0 < (categorize_cards exampleWolfOnly).quantities.plumes_corbeau_count then
        [SummaryItem.qtyLine (categorize_cards exampleWolfOnly).quantities.plumes_corbeau_count
          "Plumes - 1x collee"]
      else []) ++
      (if 0 < (categorize_cards exampleWolfOnly).quantities.capitaine_count then
        [SummaryItem.qtyLine (categorize_cards exampleWolfOnly).quantities.capitaine_count
          "Capitaine - 1x collee"]
      else []) ++
      (if 0 < (categorize_cards exampleWolfOnly).quantities.autres_cartes then
        [SummaryItem.othersLine (categorize_cards exampleWolfOnly).quantities.autres_cartes]
      else []) ++
      (if (categorize_cards exampleWolfOnly).categorized CardType.BACK ≠ [] then
        [SummaryItem.backLine (categorize_cards exampleWolfOnly).quantities.dos_count]
      else []) ++
      [SummaryItem.blank,
       SummaryItem.totalLine
         (((categorize_cards exampleWolfOnly).quantities.total_cartes_face : Int) - 3)] :=
  claim_C7_summary exampleWolfOnly

/-- C8: the scan fails with the not-found error exactly when the source
folder is absent (and then nothing is produced), while an empty folder is no
error: every derived quantity is zero and no card pages are emitted. -/
theorem claim_C8_scan :
    (∀ folder : Option (List CardPath),
      run_generator folder = Except.error "Cards directory not found" ↔
        folder = none) ∧
    (categorize_cards []).quantities =
      { villageois_count := 0, loup_garou_count := 0, plumes_corbeau_count := 0,
        capitaine_count := 0, autres_cartes := 0, total_cartes_face := 0,
        dos_count := 0, total_cartes := 0, has_villageois := false,
        has_loup_garou := false, has_plumes_corbeau := false,
        has_capitaine := false, has_dos := false } ∧
    run_generator (some []) =
      Except.ok (generate_content_summary (categorize_cards []), []) := by
  refine ⟨?_, by decide, ?_⟩
  · intro folder
    cases folder with
    | none => simp [run_generator, scan_card_files]
    | some files => simp [run_generator, scan_card_files]
  · have hprep : prepare_card_list (categorize_cards []) = [] := by decide
    show Except.ok (generate_content_summary (categorize_cards []),
        add_card_pages (prepare_card_list (categorize_cards [])) calculate_layout) =
      Except.ok (generate_content_summary (categorize_cards []), [])
    rw [hprep]
    unfold add_card_pages
    rw [pages_chunk_nil]

/-- C8 witness: a missing folder is reported as the not-found error. -/
theorem claim_C8_scan_witness :
    run_generator none = Except.error "Cards directory not found" :=
  (claim_C8_scan.1 none).mpr rfl

/-- C9: the flat card list always has exactly `total_cards` entries — the
expansion neither adds nor loses a card relative to the computed totals. -/
theorem claim_C9_flat_list_length : ∀ files : List CardPath,
    (prepare_card_list (categorize_cards files)).length =
      (categorize_cards files).quantities.total_cartes := by
  intro files
  rw [prepare_card_list_inv (categorize_cards files)
    (categorize_cards_quantities files)]
  simp only [List.length_append, List.length_replicate]
  rw [categorize_cards_quantities, calculate_quantities_total,
    calculate_quantities_face]
  omega

/-- C9 witness: the count identity instantiated at the full example folder
(28 cards). -/
theorem claim_C9_flat_list_length_witness :
    (prepare_card_list (categorize_cards exampleAllFiles)).length =
      (categorize_cards exampleAllFiles).quantities.total_cartes :=
  claim_C9_flat_list_length exampleAllFiles

/-- C10: with a duplicated category filename, categorization still succeeds:
the bucket records every matching path in scan order, the first occurrence is
the printed representative (the bucket's head), and all derived quantities
agree with the same folder reduced to a single occurrence of that image. -/
theorem claim_C10_duplicates (files : List CardPath) (t : CardType) (p q : CardPath)
    (hp : p ∈ files) (hq : q ∈ files) (hpq : p ≠ q)
    (hpn : p.name = t.value) (hqn2 : q.name = t.value) :
    (categorize_cards files).categorized t =
      files.filter (fun r => decide (r.name = t.value)) ∧
    files.find? (fun r => decide (r.name = t.value)) =
      some (((categorize_cards files).categorized t).headI) ∧
    (categorize_cards files).quantities =
      (categorize_cards (keepFirst t.value files)).quantities := by
  refine ⟨categorize_cards_categorized files t, ?_,
    (categorize_keepFirst_quantities files t).symm⟩
  rw [find?_eq_head?_filter, categorize_cards_categorized]
  have hne : files.filter (fun r => decide (r.name = t.value)) ≠ [] := by
    intro hnil
    have hmem : p ∈ files.filter (fun r => decide (r.name = t.value)) :=
      List.mem_filter.mpr ⟨hp, by simp [hpn]⟩
    rw [hnil] at hmem
    exact List.not_mem_nil p hmem
  cases hfil : files.filter (fun r => decide (r.name = t.value)) with
  | nil => exact absurd hfil hne
  | cons a as => simp [List.headI]

/-- C10 witness: the duplicate-villager folder, with its two distinct
villager-named paths, keeps its quantities when reduced to one occurrence. -/
theorem claim_C10_duplicates_witness :
    ((⟨"Cartes", "Simple Villageois.png"⟩ : CardPath) ∈ exampleDupFiles ∧
     (⟨"Autres", "Simple Villageois.png"⟩ : CardPath) ∈ exampleDupFiles ∧
     (⟨"Cartes", "Simple Villageois.png"⟩ : CardPath) ≠
       ⟨"Autres", "Simple Villageois.png"⟩) ∧
    (categorize_cards exampleDupFiles).quantities =
      (categorize_cards (keepFirst CardType.VILLAGER.value exampleDupFiles)).quantities :=
  ⟨⟨by decide, by decide, by decide⟩,
   (claim_C10_duplicates exampleDupFiles CardType.VILLAGER
     ⟨"Cartes", "Simple Villageois.png"⟩ ⟨"Autres", "Simple Villageois.png"⟩
     (by decide) (by decide) (by decide) (by decide) (by decide)).2.2⟩

end CardsPdf
